import Mathlib

/-!
Verification of the RustaCUDA memory-ownership core (unified/locked boxes and
buffers, synchronous/asynchronous copy scaffold, deferred stream work).

The Rust sources are shallowly embedded: the external CUDA driver primitives
(cuMemAllocManaged / cuMemFreeHost wrappers, declared outside the given
sources as the excluded accelerator-runtime collaborator) are modelled as a
state `Backend` holding a flat byte-addressed memory, a bump allocator and an
oracle prescribing the outcome of each backend call; every operation of the
ownership layer is a pure function threading this state.  Machine `usize`
arithmetic is modelled on `Nat` with an explicit `2 ^ 64` bound, matching
`checked_mul`.  Element types are a parameter `β` together with an explicit
`z : Nat` standing for `mem::size_of::<T>()`.
-/

set_option linter.unusedVariables false

/-- CUDA error codes (subset of the `CudaError` enum relevant to the memory core). -/
inductive CudaError where
  | invalidMemoryAllocation
  | unknownError
  | launchFailure
  deriving DecidableEq, Repr

/-- `CudaResult<T>` from `error.rs`. -/
abbrev CudaResult (α : Type) := Except CudaError α

/-- `DropResult<T> = Result<(), (CudaError, T)>` from `error.rs`. -/
abbrev DropResult (α : Type) := Except (CudaError × α) Unit

/-- The three memory regions (policies) of the spec. -/
inductive Region where
  | device
  | locked
  | unified
  deriving DecidableEq, Repr

/-- One call into the external allocate/free primitives, as logged by the model. -/
inductive BackendCall where
  | alloc (r : Region) (bytes : Nat)
  | free (r : Region) (ptr : Nat)
  deriving DecidableEq, Repr

/-- Width of the address space: `usize` arithmetic wraps at `2 ^ 64`. -/
def USIZE : Nat := 2 ^ 64

/-- `usize::checked_mul`: `some` of the product when it fits in the address
space, `none` on overflow. -/
def checked_mul (a b : Nat) : Option Nat :=
  if a * b < USIZE then some (a * b) else none

/-- State of the external accelerator runtime: a flat memory of `β`-cells
addressed by byte offset, a bump pointer delivering fresh allocations, two
oracles prescribing the outcome of the n-th backend call (allocation failures
are resource exhaustion; free failures are deferred errors from unrelated
prior asynchronous work), and a log of every backend call made. -/
structure Backend (β : Type) where
  mem : Nat → β
  nextPtr : Nat
  allocResult : Nat → Option CudaError
  freeResult : Nat → Option CudaError
  calls : List BackendCall

variable {β : Type} {γ : Type}

/-- The external `allocate(region, byte_count)` primitive of the spec.  On
success it returns a fresh base pointer and advances the bump pointer past the
allocation; on failure it returns the oracle's error.  Every call is logged. -/
def backendAlloc (r : Region) (bytes : Nat) (s : Backend β) : CudaResult Nat × Backend β :=
  match s.allocResult s.calls.length with
  | some e => (.error e, { s with calls := s.calls ++ [.alloc r bytes] })
  | none =>
      (.ok s.nextPtr,
        { s with
            nextPtr := s.nextPtr + bytes + 1
            calls := s.calls ++ [.alloc r bytes] })

/-- The external `free(region, ptr)` primitive.  A failing free reports a
deferred error and releases nothing, so the memory contents are untouched;
the model never reads memory through a successfully freed pointer, so `mem`
is left unchanged there as well.  Every call is logged. -/
def backendFree (r : Region) (p : Nat) (s : Backend β) : CudaResult Unit × Backend β :=
  match s.freeResult s.calls.length with
  | some e => (.error e, { s with calls := s.calls ++ [.free r p] })
  | none => (.ok (), { s with calls := s.calls ++ [.free r p] })

/-- `cuda_malloc_unified`: the box passes an element count of 1, the buffer a
byte count; both amount to a byte count handed to the unified-region
allocator. -/
def cuda_malloc_unified (bytes : Nat) (s : Backend β) : CudaResult Nat × Backend β :=
  backendAlloc Region.unified bytes s

/-- `cuda_free_unified`. -/
def cuda_free_unified (p : Nat) (s : Backend β) : CudaResult Unit × Backend β :=
  backendFree Region.unified p s

/-- `cuda_malloc_locked`. -/
def cuda_malloc_locked (bytes : Nat) (s : Backend β) : CudaResult Nat × Backend β :=
  backendAlloc Region.locked bytes s

/-- `cuda_free_locked`. -/
def cuda_free_locked (p : Nat) (s : Backend β) : CudaResult Unit × Backend β :=
  backendFree Region.locked p s

/-- `UnifiedBox<T>` from `unified_box.rs`: a single `UnifiedPointer<T>`,
where pointer value 0 is null. -/
structure UnifiedBox where
  ptr : Nat
  deriving DecidableEq, Repr

/-- `UnifiedBox::uninitialized` (size argument `z` is `mem::size_of::<T>()`):
for a zero-sized type, the null sentinel with no backend call; otherwise one
allocation of one element (`z` bytes) via `cuda_malloc_unified`. -/
def UnifiedBox.uninitialized (z : Nat) (s : Backend β) : CudaResult UnifiedBox × Backend β :=
  if z = 0 then (.ok ⟨0⟩, s)
  else
    match cuda_malloc_unified z s with
    | (.error e, s1) => (.error e, s1)
    | (.ok p, s1) => (.ok ⟨p⟩, s1)

/-- The write `*ubox = val` through `DerefMut`. -/
def UnifiedBox.write (b : UnifiedBox) (v : β) (s : Backend β) : Backend β :=
  { s with mem := fun a => if a = b.ptr then v else s.mem a }

/-- The read `*ubox` through `Deref`. -/
def UnifiedBox.get (b : UnifiedBox) (s : Backend β) : β :=
  s.mem b.ptr

/-- `UnifiedBox::new`: zero-sized types get the null sentinel without any
backend call; otherwise allocate uninitialized and write `val` into it. -/
def UnifiedBox.new (z : Nat) (v : β) (s : Backend β) : CudaResult UnifiedBox × Backend β :=
  if z = 0 then (.ok ⟨0⟩, s)
  else
    match UnifiedBox.uninitialized z s with
    | (.error e, s1) => (.error e, s1)
    | (.ok b, s1) => (.ok b, b.write v s1)

/-- `UnifiedBox::drop` (the explicit, fallible release).  Besides the
`DropResult` and the backend state, the model returns the residual state of
the consumed local variable — its pointer is replaced by null before the free
is attempted, and on success the value is forgotten — so that a later
destructor run on the residual can be talked about. -/
def UnifiedBox.drop (b : UnifiedBox) (s : Backend β) :
    DropResult UnifiedBox × Backend β × UnifiedBox :=
  if b.ptr = 0 then (.ok (), s, b)
  else
    match cuda_free_unified b.ptr s with
    | (.ok _, s1) => (.ok (), s1, ⟨0⟩)
    | (.error e, s1) => (.error (e, ⟨b.ptr⟩), s1, ⟨0⟩)

/-- `Drop for UnifiedBox` (the implicit, scope-exit release): a no-op on a
null pointer, otherwise one free call (a failure there aborts the process;
the call itself is still made and logged).  Returns the final state of the
handle, whose pointer has been replaced by null. -/
def UnifiedBox.dropImplicit (b : UnifiedBox) (s : Backend β) : Backend β × UnifiedBox :=
  if b.ptr = 0 then (s, b)
  else ((cuda_free_unified b.ptr s).2, ⟨0⟩)

/-- `PartialEq for UnifiedBox`: equality delegates to the pointees. -/
def UnifiedBox.eqv (s : Backend β) (b1 b2 : UnifiedBox) : Prop :=
  UnifiedBox.get b1 s = UnifiedBox.get b2 s

/-- `PartialOrd::lt for UnifiedBox`: ordering delegates to the pointees. -/
def UnifiedBox.lt [LT β] (s : Backend β) (b1 b2 : UnifiedBox) : Prop :=
  UnifiedBox.get b1 s < UnifiedBox.get b2 s

/-- `LockedBox<T>` from `locked_box.rs`: a raw `*mut T`, value 0 is null. -/
structure LockedBox where
  ptr : Nat
  deriving DecidableEq, Repr

/-- `LockedBox::uninitialized`: same shape as the unified box, but against the
page-locked region allocator. -/
def LockedBox.uninitialized (z : Nat) (s : Backend β) : CudaResult LockedBox × Backend β :=
  if z = 0 then (.ok ⟨0⟩, s)
  else
    match cuda_malloc_locked z s with
    | (.error e, s1) => (.error e, s1)
    | (.ok p, s1) => (.ok ⟨p⟩, s1)

/-- The write `*ubox = val` through `DerefMut`. -/
def LockedBox.write (b : LockedBox) (v : β) (s : Backend β) : Backend β :=
  { s with mem := fun a => if a = b.ptr then v else s.mem a }

/-- The read `*ubox` through `Deref`. -/
def LockedBox.get (b : LockedBox) (s : Backend β) : β :=
  s.mem b.ptr

/-- `LockedBox::new`. -/
def LockedBox.new (z : Nat) (v : β) (s : Backend β) : CudaResult LockedBox × Backend β :=
  if z = 0 then (.ok ⟨0⟩, s)
  else
    match LockedBox.uninitialized z s with
    | (.error e, s1) => (.error e, s1)
    | (.ok b, s1) => (.ok b, b.write v s1)

/-- `LockedBox::drop` (the explicit, fallible release); see `UnifiedBox.drop`
for the reading of the residual component. -/
def LockedBox.drop (b : LockedBox) (s : Backend β) :
    DropResult LockedBox × Backend β × LockedBox :=
  if b.ptr = 0 then (.ok (), s, b)
  else
    match cuda_free_locked b.ptr s with
    | (.ok _, s1) => (.ok (), s1, ⟨0⟩)
    | (.error e, s1) => (.error (e, ⟨b.ptr⟩), s1, ⟨0⟩)

/-- `Drop for LockedBox` (the implicit, scope-exit release). -/
def LockedBox.dropImplicit (b : LockedBox) (s : Backend β) : Backend β × LockedBox :=
  if b.ptr = 0 then (s, b)
  else ((cuda_free_locked b.ptr s).2, ⟨0⟩)

/-- `PartialEq for LockedBox`: equality delegates to the pointees. -/
def LockedBox.eqv (s : Backend β) (b1 b2 : LockedBox) : Prop :=
  LockedBox.get b1 s = LockedBox.get b2 s

/-- `PartialOrd::lt for LockedBox`: ordering delegates to the pointees. -/
def LockedBox.lt [LT β] (s : Backend β) (b1 b2 : LockedBox) : Prop :=
  LockedBox.get b1 s < LockedBox.get b2 s

/-- `UnifiedBuffer<T>` from `unified_buffer.rs`: base pointer and capacity. -/
structure UnifiedBuffer where
  buf : Nat
  capacity : Nat
  deriving DecidableEq, Repr

/-- `ptr::NonNull::dangling()`: a fixed, well-aligned, non-null sentinel
address, never produced by the bump allocator's live range bookkeeping. -/
def danglingPtr : Nat := 1

/-- `UnifiedBuffer::uninitialized(size)`: the overflow check
`size.checked_mul(mem::size_of::<T>())` comes first; on overflow,
`InvalidMemoryAllocation` with no backend interaction.  A positive byte count
is allocated via `cuda_malloc_unified`; an empty request (zero capacity or
zero-sized element) takes the dangling sentinel with no backend call. -/
def UnifiedBuffer.uninitialized (z size : Nat) (s : Backend β) :
    CudaResult UnifiedBuffer × Backend β :=
  match checked_mul size z with
  | none => (.error .invalidMemoryAllocation, s)
  | some bytes =>
      if 0 < bytes then
        match cuda_malloc_unified bytes s with
        | (.error e, s1) => (.error e, s1)
        | (.ok p, s1) => (.ok ⟨p, size⟩, s1)
      else (.ok ⟨danglingPtr, size⟩, s)

/-- The write `buffer[i] = v` (`get_unchecked_mut`): element `i` of an element
type of size `z` lives at byte offset `i * z` from the base pointer. -/
def UnifiedBuffer.writeIdx (z : Nat) (b : UnifiedBuffer) (i : Nat) (v : β) (s : Backend β) :
    Backend β :=
  { s with mem := fun a => if a = b.buf + i * z then v else s.mem a }

/-- The `Deref` view of the buffer: `slice::from_raw_parts(buf, capacity)`,
read element by element from the backend memory. -/
def UnifiedBuffer.view (z : Nat) (b : UnifiedBuffer) (s : Backend β) : List β :=
  (List.range b.capacity).map fun i => s.mem (b.buf + i * z)

/-- The fill loop of `UnifiedBuffer::new`:
`for x in 0..size { *uninit.get_unchecked_mut(x) = value.clone(); }`
(`clone` of a `DeviceCopy` value is the value itself). -/
def UnifiedBuffer.fillFrom (z : Nat) (b : UnifiedBuffer) (v : β) : Nat → Backend β → Backend β
  | 0, s => s
  | n + 1, s => UnifiedBuffer.writeIdx z b n v (UnifiedBuffer.fillFrom z b v n s)

/-- `UnifiedBuffer::new(value, size)`: allocate uninitialized, then clone-fill
every element. -/
def UnifiedBuffer.new (z : Nat) (v : β) (size : Nat) (s : Backend β) :
    CudaResult UnifiedBuffer × Backend β :=
  match UnifiedBuffer.uninitialized z size s with
  | (.error e, s1) => (.error e, s1)
  | (.ok b, s1) => (.ok b, UnifiedBuffer.fillFrom z b v size s1)

/-- `UnifiedBuffer::as_unified_ptr`. -/
def UnifiedBuffer.as_unified_ptr (b : UnifiedBuffer) : Nat :=
  b.buf

/-- `UnifiedBuffer::len` (slice length = capacity). -/
def UnifiedBuffer.len (b : UnifiedBuffer) : Nat :=
  b.capacity

/-- `UnifiedBuffer::from_raw_parts(ptr, capacity)`. -/
def UnifiedBuffer.from_raw_parts (p : Nat) (capacity : Nat) : UnifiedBuffer :=
  ⟨p, capacity⟩

/-- `UnifiedBuffer::drop` (the explicit, fallible release): `Ok` at once on a
null pointer; a real allocation (positive capacity and element size) is freed
after the pointer has been replaced by null, reconstructing the buffer from
the saved raw parts on failure; an elided allocation trivially succeeds,
leaving the handle to its ordinary destructor (third component: the residual
local, as in `UnifiedBox.drop`). -/
def UnifiedBuffer.drop (z : Nat) (b : UnifiedBuffer) (s : Backend β) :
    DropResult UnifiedBuffer × Backend β × UnifiedBuffer :=
  if b.buf = 0 then (.ok (), s, b)
  else
    if 0 < b.capacity ∧ 0 < z then
      match cuda_free_unified b.buf s with
      | (.ok _, s1) => (.ok (), s1, ⟨0, b.capacity⟩)
      | (.error e, s1) =>
          (.error (e, UnifiedBuffer.from_raw_parts b.buf b.capacity), s1, ⟨0, b.capacity⟩)
    else (.ok (), s, b)

/-- `Drop for UnifiedBuffer` (the implicit, scope-exit release): returns the
final handle state (null pointer after a real free, capacity zeroed). -/
def UnifiedBuffer.dropImplicit (z : Nat) (b : UnifiedBuffer) (s : Backend β) :
    Backend β × UnifiedBuffer :=
  if b.buf = 0 then (s, b)
  else
    if 0 < b.capacity ∧ 0 < z then ((cuda_free_unified b.buf s).2, ⟨0, 0⟩)
    else (s, ⟨b.buf, 0⟩)

/-- `Executor` from `futures.rs`: the execution context handed to a promise's
closure, wrapping a raw stream token. -/
structure Executor where
  inner : Nat
  deriving DecidableEq, Repr

/-- `Executor::copy` from `futures.rs`:
`for (src, dst) in srcs.iter().zip(dsts) { *dst = *src; }` — the destination
keeps its length, the zipped prefix is overwritten, the tail is untouched. -/
def Executor.copy (ex : Executor) (srcs dsts : List Int) : List Int :=
  ((srcs.zip dsts).map Prod.fst) ++ dsts.drop srcs.length

/-- `Async` readiness values of the futures 0.1 `Poll` (for `Item = ()`). -/
inductive Async where
  | ready
  | notReady
  deriving DecidableEq, Repr

/-- `Promise<'a, F>` from `futures.rs`: a stream token plus the stored
closure. -/
structure Promise (γ : Type) where
  inner : Nat
  f : Executor → γ

/-- `Promise::new`. -/
def Promise.new (stream : Nat) (f : Executor → γ) : Promise γ :=
  ⟨stream, f⟩

/-- `Future::poll for Promise`: the body is exactly `Ok(Async::NotReady)`; it
neither mutates the promise nor calls the stored closure, so the model
returns the unchanged promise, the poll outcome, and the (empty) list of
closure invocations this call performed. -/
def Promise.poll (p : Promise γ) : Promise γ × CudaResult Async × List γ :=
  (p, .ok .notReady, [])

/-- `Promise::execute`: consumes the promise and runs `(self.f)(executor)` —
the returned list of closure invocations has exactly one element. -/
def Promise.execute (p : Promise γ) (ex : Executor) : List γ :=
  [p.f ex]

/-- Iterated polling: `n` polls in sequence, collecting every poll outcome and
every closure invocation performed along the way. -/
def Promise.pollN : Nat → Promise γ → Promise γ × List (CudaResult Async) × List γ
  | 0, p => (p, [], [])
  | n + 1, p =>
      match Promise.poll p with
      | (p1, r, inv) =>
          match Promise.pollN n p1 with
          | (p2, rs, invs) => (p2, r :: rs, inv ++ invs)

/-- `SizeMismatch` failure kind of the spec's synchronous copy contract. -/
inductive CopyFailure where
  | sizeMismatch
  deriving DecidableEq, Repr

/-- Modelled from the spec: the `CopyDestination` implementations for the
device box, device buffer and device slice (`device_box.rs`,
`device_buffer.rs`, `device_slice.rs`) are not among the given sources — only
the trait declaration is.  Per the spec, `copy_from(source)` requires source
and destination to hold the same element count, reports a `SizeMismatch`
failure on differing counts, and otherwise blocks until every element has
moved; the result is the new contents of the destination. -/
def copy_from (dst src : List β) : Except CopyFailure (List β) :=
  if src.length = dst.length then .ok src else .error .sizeMismatch

/-- A backend state whose oracles let every call succeed: zeroed memory,
first fresh pointer 1, empty call log. -/
def okState : Backend Nat :=
  { mem := fun _ => 0
    nextPtr := 1
    allocResult := fun _ => none
    freeResult := fun _ => none
    calls := [] }

/-- A backend state whose free oracle fails every free call with
`unknownError` (a deferred error surfacing from prior asynchronous work);
memory holds 7 everywhere so dereferences are recognisable. -/
def failFreeState : Backend Nat :=
  { mem := fun _ => 7
    nextPtr := 1
    allocResult := fun _ => none
    freeResult := fun _ => some CudaError.unknownError
    calls := [] }

/-- A backend state whose allocation oracle rejects every allocation with
`unknownError` (resource exhaustion). -/
def failAllocState : Backend Nat :=
  { mem := fun _ => 0
    nextPtr := 1
    allocResult := fun _ => some CudaError.unknownError
    freeResult := fun _ => none
    calls := [] }

/-! ### Helper lemmas -/

theorem backendFree_mem (r : Region) (p : Nat) (s : Backend β) :
    ((backendFree r p s).2).mem = s.mem := by
  cases h : s.freeResult s.calls.length <;> simp [backendFree, h]

theorem backendFree_calls (r : Region) (p : Nat) (s : Backend β) :
    ((backendFree r p s).2).calls = s.calls ++ [.free r p] := by
  cases h : s.freeResult s.calls.length <;> simp [backendFree, h]

theorem view_congr_mem (z : Nat) (b : UnifiedBuffer) (s t : Backend β) (h : t.mem = s.mem) :
    UnifiedBuffer.view z b t = UnifiedBuffer.view z b s := by
  simp [UnifiedBuffer.view, h]

theorem ubox_new_success (z : Nat) (hz : z ≠ 0) (v : β) (s : Backend β)
    (h : s.allocResult s.calls.length = none) :
    UnifiedBox.new z v s =
      (.ok ⟨s.nextPtr⟩,
        { mem := fun a => if a = s.nextPtr then v else s.mem a
          nextPtr := s.nextPtr + z + 1
          allocResult := s.allocResult
          freeResult := s.freeResult
          calls := s.calls ++ [.alloc .unified z] }) := by
  simp [UnifiedBox.new, UnifiedBox.uninitialized, cuda_malloc_unified, backendAlloc, hz, h,
    UnifiedBox.write]

theorem ubox_new_failure (z : Nat) (hz : z ≠ 0) (v : β) (s : Backend β) (e : CudaError)
    (h : s.allocResult s.calls.length = some e) :
    UnifiedBox.new z v s =
      (.error e, { s with calls := s.calls ++ [.alloc .unified z] }) := by
  simp [UnifiedBox.new, UnifiedBox.uninitialized, cuda_malloc_unified, backendAlloc, hz, h]

theorem lbox_new_success (z : Nat) (hz : z ≠ 0) (v : β) (s : Backend β)
    (h : s.allocResult s.calls.length = none) :
    LockedBox.new z v s =
      (.ok ⟨s.nextPtr⟩,
        { mem := fun a => if a = s.nextPtr then v else s.mem a
          nextPtr := s.nextPtr + z + 1
          allocResult := s.allocResult
          freeResult := s.freeResult
          calls := s.calls ++ [.alloc .locked z] }) := by
  simp [LockedBox.new, LockedBox.uninitialized, cuda_malloc_locked, backendAlloc, hz, h,
    LockedBox.write]

theorem lbox_new_failure (z : Nat) (hz : z ≠ 0) (v : β) (s : Backend β) (e : CudaError)
    (h : s.allocResult s.calls.length = some e) :
    LockedBox.new z v s =
      (.error e, { s with calls := s.calls ++ [.alloc .locked z] }) := by
  simp [LockedBox.new, LockedBox.uninitialized, cuda_malloc_locked, backendAlloc, hz, h]

theorem UnifiedBuffer.fillFrom_mem (z : Nat) (b : UnifiedBuffer) (v : β) :
    ∀ (n : Nat) (s : Backend β) (i : Nat), i < n →
      (UnifiedBuffer.fillFrom z b v n s).mem (b.buf + i * z) = v := by
  intro n
  induction n with
  | zero => intro s i h; exact absurd h (Nat.not_lt_zero i)
  | succ n ih =>
      intro s i h
      by_cases hc : b.buf + i * z = b.buf + n * z
      · simp [UnifiedBuffer.fillFrom, UnifiedBuffer.writeIdx, hc]
      · have hi : i < n := by
          rcases Nat.lt_succ_iff_lt_or_eq.mp h with h1 | h1
          · exact h1
          · exact absurd (by rw [h1]) hc
        simp [UnifiedBuffer.fillFrom, UnifiedBuffer.writeIdx, hc]
        exact ih s i hi

theorem map_range_const (f : Nat → β) (v : β) :
    ∀ (n : Nat), (∀ i, i < n → f i = v) → (List.range n).map f = List.replicate n v := by
  intro n
  induction n with
  | zero => intro _; rfl
  | succ n ih =>
      intro h
      rw [List.range_succ, List.map_append, ih (fun i hi => h i (by omega)),
        List.replicate_succ']
      simp [h n (by omega)]

theorem UnifiedBuffer.uninitialized_ok (z size : Nat) (s : Backend β) (b : UnifiedBuffer)
    (s1 : Backend β) (h : UnifiedBuffer.uninitialized z size s = (.ok b, s1)) :
    b.capacity = size := by
  unfold UnifiedBuffer.uninitialized at h
  cases hm : checked_mul size z with
  | none => rw [hm] at h; simp at h
  | some bytes =>
      rw [hm] at h
      by_cases hb : 0 < bytes
      · simp only [if_pos hb] at h
        cases ha : cuda_malloc_unified bytes s with
        | mk r s2 =>
            cases r with
            | error e => rw [ha] at h; simp at h
            | ok p =>
                rw [ha] at h
                simp at h
                rw [← h.1]
      · simp only [if_neg hb] at h
        simp at h
        rw [← h.1]

theorem map_fst_zip_take {α δ : Type} :
    ∀ (l1 : List α) (l2 : List δ), (l1.zip l2).map Prod.fst = l1.take l2.length
  | [], _ => by simp
  | _ :: _, [] => by simp
  | a :: l1, b :: l2 => by simp [map_fst_zip_take l1 l2]

/-! ### Claims -/

/-- C2: for every element size and every count `size` such that
`size * sizeof(T)` overflows `usize`, `UnifiedBuffer::uninitialized(size)` —
and therefore `UnifiedBuffer::new(value, size)` — returns the size-overflow
error `InvalidMemoryAllocation` with the backend state completely untouched,
so no backend allocate call is made and no partially-completed allocation
state is ever observable. -/
theorem claim_c2 (z size : Nat) (v : β) (s : Backend β) (h : USIZE ≤ size * z) :
    UnifiedBuffer.uninitialized z size s = (.error .invalidMemoryAllocation, s) ∧
    UnifiedBuffer.new z v size s = (.error .invalidMemoryAllocation, s) := by
  have hm : checked_mul size z = none := by
    simp [checked_mul]
    omega
  constructor
  · simp [UnifiedBuffer.uninitialized, hm]
  · simp [UnifiedBuffer.new, UnifiedBuffer.uninitialized, hm]

/-- Witness for C2 at a concrete input: an 8-byte element type and count
`SIZE_MAX - 1`. -/
theorem claim_c2_witness :
    USIZE ≤ (USIZE - 1) * 8 ∧
    (UnifiedBuffer.uninitialized 8 (USIZE - 1) okState
        = (.error .invalidMemoryAllocation, okState) ∧
      UnifiedBuffer.new 8 (0 : Nat) (USIZE - 1) okState
        = (.error .invalidMemoryAllocation, okState)) :=
  ⟨by decide, claim_c2 8 (USIZE - 1) 0 okState (by decide)⟩

/-- C7: decomposing a buffer into its raw pointer (`as_unified_ptr`) and
length and immediately reconstructing with `from_raw_parts` yields a buffer
whose element sequence (view) is identical to the original — the round-trip
identity law.  The two handles agree in every backend state because the view
is fully determined by the pointer, the capacity and the memory. -/
theorem claim_c7 (z : Nat) (b : UnifiedBuffer) (s : Backend β) :
    UnifiedBuffer.view z
        (UnifiedBuffer.from_raw_parts (UnifiedBuffer.as_unified_ptr b) (UnifiedBuffer.len b)) s
      = UnifiedBuffer.view z b s := rfl

/-- C9: polling a `Promise` any number of times always yields
`Ok(Async::NotReady)` — never completion, never an error — and performs no
invocation of the stored closure; the explicit `execute` call consumes the
promise and invokes the closure exactly once. -/
theorem claim_c9 (n : Nat) (p : Promise γ) (ex : Executor) :
    Promise.pollN n p = (p, List.replicate n (Except.ok Async.notReady), ([] : List γ)) ∧
    Promise.execute p ex = [p.f ex] := by
  constructor
  · induction n with
    | zero => rfl
    | succ n ih => simp [Promise.pollN, Promise.poll, ih, List.replicate_succ]
  · rfl

/-- C10: release paths free each allocation at most once.  For each owning
type, performing the explicit release and then executing the destructor on
the residual handle it leaves behind extends the backend call log by at most
one free of the handle's pointer (never two); moreover both release paths are
no-ops on a null pointer. -/
theorem claim_c10 (z : Nat) (bb : UnifiedBox) (lb : LockedBox) (ub : UnifiedBuffer)
    (s : Backend β) :
    (((UnifiedBox.dropImplicit (UnifiedBox.drop bb s).2.2 (UnifiedBox.drop bb s).2.1).1).calls
          = s.calls ∨
      ((UnifiedBox.dropImplicit (UnifiedBox.drop bb s).2.2 (UnifiedBox.drop bb s).2.1).1).calls
          = s.calls ++ [BackendCall.free Region.unified bb.ptr]) ∧
    (((LockedBox.dropImplicit (LockedBox.drop lb s).2.2 (LockedBox.drop lb s).2.1).1).calls
          = s.calls ∨
      ((LockedBox.dropImplicit (LockedBox.drop lb s).2.2 (LockedBox.drop lb s).2.1).1).calls
          = s.calls ++ [BackendCall.free Region.locked lb.ptr]) ∧
    (((UnifiedBuffer.dropImplicit z (UnifiedBuffer.drop z ub s).2.2
            (UnifiedBuffer.drop z ub s).2.1).1).calls
          = s.calls ∨
      ((UnifiedBuffer.dropImplicit z (UnifiedBuffer.drop z ub s).2.2
            (UnifiedBuffer.drop z ub s).2.1).1).calls
          = s.calls ++ [BackendCall.free Region.unified ub.buf]) ∧
    UnifiedBox.drop ⟨0⟩ s = (.ok (), s, ⟨0⟩) ∧
    UnifiedBox.dropImplicit ⟨0⟩ s = (s, ⟨0⟩) ∧
    LockedBox.drop ⟨0⟩ s = (.ok (), s, ⟨0⟩) ∧
    LockedBox.dropImplicit ⟨0⟩ s = (s, ⟨0⟩) ∧
    UnifiedBuffer.drop z ⟨0, ub.capacity⟩ s = (.ok (), s, ⟨0, ub.capacity⟩) ∧
    UnifiedBuffer.dropImplicit z ⟨0, ub.capacity⟩ s = (s, ⟨0, ub.capacity⟩) := by
  refine ⟨?_, ?_, ?_, rfl, rfl, rfl, rfl, rfl, rfl⟩
  · by_cases hb : bb.ptr = 0
    · left
      simp [UnifiedBox.drop, hb, UnifiedBox.dropImplicit]
    · right
      cases hfr : s.freeResult s.calls.length with
      | none =>
          simp [UnifiedBox.drop, hb, cuda_free_unified, backendFree, hfr,
            UnifiedBox.dropImplicit]
      | some e =>
          simp [UnifiedBox.drop, hb, cuda_free_unified, backendFree, hfr,
            UnifiedBox.dropImplicit]
  · by_cases hb : lb.ptr = 0
    · left
      simp [LockedBox.drop, hb, LockedBox.dropImplicit]
    · right
      cases hfr : s.freeResult s.calls.length with
      | none =>
          simp [LockedBox.drop, hb, cuda_free_locked, backendFree, hfr,
            LockedBox.dropImplicit]
      | some e =>
          simp [LockedBox.drop, hb, cuda_free_locked, backendFree, hfr,
            LockedBox.dropImplicit]
  · by_cases hb : ub.buf = 0
    · left
      simp [UnifiedBuffer.drop, hb, UnifiedBuffer.dropImplicit]
    · by_cases hcz : 0 < ub.capacity ∧ 0 < z
      · right
        cases hfr : s.freeResult s.calls.length with
        | none =>
            simp [UnifiedBuffer.drop, hb, hcz, cuda_free_unified, backendFree, hfr,
              UnifiedBuffer.dropImplicit]
        | some e =>
            simp [UnifiedBuffer.drop, hb, hcz, cuda_free_unified, backendFree, hfr,
              UnifiedBuffer.dropImplicit]
      · left
        simp [UnifiedBuffer.drop, hb, hcz, UnifiedBuffer.dropImplicit]

/-- C1: for every owning handle holding a live non-elided allocation
(non-null pointer; for buffers additionally positive capacity and element
size), the explicit release returns, when the backend free fails with error
`e`, the pair of `e` and a reconstructed handle carrying the same pointer
(and, for buffers, the same capacity) that still dereferences to its
pre-release value; when the backend free succeeds it returns `Ok(())`.
State `s` exercises the failing free, state `t` the succeeding one. -/
theorem claim_c1 (z : Nat) (bb : UnifiedBox) (lb : LockedBox) (ub : UnifiedBuffer)
    (s t : Backend β) (e : CudaError)
    (hbb : bb.ptr ≠ 0) (hlb : lb.ptr ≠ 0)
    (hub : ub.buf ≠ 0) (hcap : 0 < ub.capacity) (hz : 0 < z)
    (hs : s.freeResult s.calls.length = some e)
    (ht : t.freeResult t.calls.length = none) :
    (UnifiedBox.drop bb s).1 = .error (e, bb) ∧
    UnifiedBox.get bb ((UnifiedBox.drop bb s).2.1) = UnifiedBox.get bb s ∧
    (UnifiedBox.drop bb t).1 = .ok () ∧
    (LockedBox.drop lb s).1 = .error (e, lb) ∧
    LockedBox.get lb ((LockedBox.drop lb s).2.1) = LockedBox.get lb s ∧
    (LockedBox.drop lb t).1 = .ok () ∧
    (UnifiedBuffer.drop z ub s).1
        = .error (e, UnifiedBuffer.from_raw_parts ub.buf ub.capacity) ∧
    UnifiedBuffer.view z (UnifiedBuffer.from_raw_parts ub.buf ub.capacity)
        ((UnifiedBuffer.drop z ub s).2.1) = UnifiedBuffer.view z ub s ∧
    (UnifiedBuffer.drop z ub t).1 = .ok () := by
  refine ⟨?_, ?_, ?_, ?_, ?_, ?_, ?_, ?_, ?_⟩
  · simp [UnifiedBox.drop, hbb, cuda_free_unified, backendFree, hs]
  · simp [UnifiedBox.drop, hbb, cuda_free_unified, backendFree, hs, UnifiedBox.get]
  · simp [UnifiedBox.drop, hbb, cuda_free_unified, backendFree, ht]
  · simp [LockedBox.drop, hlb, cuda_free_locked, backendFree, hs]
  · simp [LockedBox.drop, hlb, cuda_free_locked, backendFree, hs, LockedBox.get]
  · simp [LockedBox.drop, hlb, cuda_free_locked, backendFree, ht]
  · simp [UnifiedBuffer.drop, hub, hcap, hz, cuda_free_unified, backendFree, hs]
  · simp [UnifiedBuffer.drop, hub, hcap, hz, cuda_free_unified, backendFree, hs,
      UnifiedBuffer.view, UnifiedBuffer.from_raw_parts]
  · simp [UnifiedBuffer.drop, hub, hcap, hz, cuda_free_unified, backendFree, ht]

/-- Witness for C1 at concrete inputs: live handles at pointers 5, 6, 7,
against a backend whose free fails with `unknownError` and one whose free
succeeds. -/
theorem claim_c1_witness :
    ((5 : Nat) ≠ 0 ∧ (6 : Nat) ≠ 0 ∧ (7 : Nat) ≠ 0 ∧ (0 : Nat) < 3 ∧ (0 : Nat) < 8 ∧
      failFreeState.freeResult failFreeState.calls.length = some CudaError.unknownError ∧
      okState.freeResult okState.calls.length = none) ∧
    ((UnifiedBox.drop ⟨5⟩ failFreeState).1 = .error (CudaError.unknownError, ⟨5⟩) ∧
      UnifiedBox.get ⟨5⟩ ((UnifiedBox.drop ⟨5⟩ failFreeState).2.1)
        = UnifiedBox.get ⟨5⟩ failFreeState ∧
      (UnifiedBox.drop ⟨5⟩ okState).1 = .ok () ∧
      (LockedBox.drop ⟨6⟩ failFreeState).1 = .error (CudaError.unknownError, ⟨6⟩) ∧
      LockedBox.get ⟨6⟩ ((LockedBox.drop ⟨6⟩ failFreeState).2.1)
        = LockedBox.get ⟨6⟩ failFreeState ∧
      (LockedBox.drop ⟨6⟩ okState).1 = .ok () ∧
      (UnifiedBuffer.drop 8 ⟨7, 3⟩ failFreeState).1
        = .error (CudaError.unknownError, UnifiedBuffer.from_raw_parts 7 3) ∧
      UnifiedBuffer.view 8 (UnifiedBuffer.from_raw_parts 7 3)
          ((UnifiedBuffer.drop 8 ⟨7, 3⟩ failFreeState).2.1)
        = UnifiedBuffer.view 8 ⟨7, 3⟩ failFreeState ∧
      (UnifiedBuffer.drop 8 ⟨7, 3⟩ okState).1 = .ok ()) :=
  ⟨⟨by decide, by decide, by decide, by decide, by decide, rfl, rfl⟩,
    claim_c1 8 ⟨5⟩ ⟨6⟩ ⟨7, 3⟩ failFreeState okState CudaError.unknownError
      (by decide) (by decide) (by decide) (by decide) (by decide) rfl rfl⟩

/-- C5: for a zero-sized type, `new` and `uninitialized` of both single-value
handles return `Ok` with the sentinel handle and leave the backend state
literally unchanged (no backend call); for a non-zero-sized type they make
exactly one allocation of `sizeof(T)` bytes through the matching region's
allocator, `new` writes the given value into the fresh allocation, and a
backend allocation error is propagated untouched. -/
theorem claim_c5 (z : Nat) (v : β) (s t : Backend β) (e : CudaError)
    (hz : z ≠ 0)
    (hok : s.allocResult s.calls.length = none)
    (hfail : t.allocResult t.calls.length = some e) :
    UnifiedBox.new 0 v s = (.ok ⟨0⟩, s) ∧
    UnifiedBox.uninitialized 0 s = (.ok ⟨0⟩, s) ∧
    LockedBox.new 0 v s = (.ok ⟨0⟩, s) ∧
    LockedBox.uninitialized 0 s = (.ok ⟨0⟩, s) ∧
    (UnifiedBox.new z v s).1 = .ok ⟨s.nextPtr⟩ ∧
    ((UnifiedBox.new z v s).2).calls = s.calls ++ [BackendCall.alloc Region.unified z] ∧
    UnifiedBox.get ⟨s.nextPtr⟩ ((UnifiedBox.new z v s).2) = v ∧
    (LockedBox.new z v s).1 = .ok ⟨s.nextPtr⟩ ∧
    ((LockedBox.new z v s).2).calls = s.calls ++ [BackendCall.alloc Region.locked z] ∧
    LockedBox.get ⟨s.nextPtr⟩ ((LockedBox.new z v s).2) = v ∧
    (UnifiedBox.new z v t).1 = .error e ∧
    (UnifiedBox.uninitialized z t).1 = .error e ∧
    (LockedBox.new z v t).1 = .error e ∧
    (LockedBox.uninitialized z t).1 = .error e := by
  refine ⟨rfl, rfl, rfl, rfl, ?_, ?_, ?_, ?_, ?_, ?_, ?_, ?_, ?_, ?_⟩
  · rw [ubox_new_success z hz v s hok]
  · rw [ubox_new_success z hz v s hok]
  · rw [ubox_new_success z hz v s hok]
    simp [UnifiedBox.get]
  · rw [lbox_new_success z hz v s hok]
  · rw [lbox_new_success z hz v s hok]
  · rw [lbox_new_success z hz v s hok]
    simp [LockedBox.get]
  · rw [ubox_new_failure z hz v t e hfail]
  · simp [UnifiedBox.uninitialized, cuda_malloc_unified, backendAlloc, hz, hfail]
  · rw [lbox_new_failure z hz v t e hfail]
  · simp [LockedBox.uninitialized, cuda_malloc_locked, backendAlloc, hz, hfail]

/-- Witness for C5 at a concrete input: 8-byte elements, value 42, one backend
accepting the allocation and one rejecting it with `unknownError`. -/
theorem claim_c5_witness :
    ((8 : Nat) ≠ 0 ∧
      okState.allocResult okState.calls.length = none ∧
      failAllocState.allocResult failAllocState.calls.length = some CudaError.unknownError) ∧
    (UnifiedBox.new 0 (42 : Nat) okState = (.ok ⟨0⟩, okState) ∧
      UnifiedBox.uninitialized 0 okState = (.ok ⟨0⟩, okState) ∧
      LockedBox.new 0 (42 : Nat) okState = (.ok ⟨0⟩, okState) ∧
      LockedBox.uninitialized 0 okState = (.ok ⟨0⟩, okState) ∧
      (UnifiedBox.new 8 (42 : Nat) okState).1 = .ok ⟨okState.nextPtr⟩ ∧
      ((UnifiedBox.new 8 (42 : Nat) okState).2).calls
        = okState.calls ++ [BackendCall.alloc Region.unified 8] ∧
      UnifiedBox.get ⟨okState.nextPtr⟩ ((UnifiedBox.new 8 (42 : Nat) okState).2) = 42 ∧
      (LockedBox.new 8 (42 : Nat) okState).1 = .ok ⟨okState.nextPtr⟩ ∧
      ((LockedBox.new 8 (42 : Nat) okState).2).calls
        = okState.calls ++ [BackendCall.alloc Region.locked 8] ∧
      LockedBox.get ⟨okState.nextPtr⟩ ((LockedBox.new 8 (42 : Nat) okState).2) = 42 ∧
      (UnifiedBox.new 8 (42 : Nat) failAllocState).1 = .error CudaError.unknownError ∧
      (UnifiedBox.uninitialized 8 failAllocState).1 = .error CudaError.unknownError ∧
      (LockedBox.new 8 (42 : Nat) failAllocState).1 = .error CudaError.unknownError ∧
      (LockedBox.uninitialized 8 failAllocState).1 = .error CudaError.unknownError) :=
  ⟨⟨by decide, rfl, rfl⟩,
    claim_c5 8 42 okState failAllocState CudaError.unknownError (by decide) rfl rfl⟩

/-- C6: whenever `UnifiedBuffer::new(value, size)` succeeds, the resulting
buffer's view has exactly `size` elements, every one a clone of `value`;
concretely, allocating a 5-element buffer of 8-byte elements filled with 0
and then setting index 2 to 1 makes the view equal `[0, 0, 1, 0, 0]`. -/
theorem claim_c6 (z : Nat) (v : β) (size : Nat) (s : Backend β) (b : UnifiedBuffer)
    (h : (UnifiedBuffer.new z v size s).1 = .ok b) :
    UnifiedBuffer.view z b ((UnifiedBuffer.new z v size s).2) = List.replicate size v ∧
    b.capacity = size ∧
    (UnifiedBuffer.new 8 (0 : Nat) 5 okState).1 = .ok ⟨1, 5⟩ ∧
    UnifiedBuffer.view 8 ⟨1, 5⟩
        (UnifiedBuffer.writeIdx 8 ⟨1, 5⟩ 2 1 ((UnifiedBuffer.new 8 (0 : Nat) 5 okState).2))
      = [0, 0, 1, 0, 0] := by
  rcases hu : UnifiedBuffer.uninitialized z size s with ⟨r, s1⟩
  cases r with
  | error e =>
      rw [UnifiedBuffer.new, hu] at h
      simp at h
  | ok b0 =>
      rw [UnifiedBuffer.new, hu] at h
      simp at h
      subst h
      have hcap := UnifiedBuffer.uninitialized_ok z size s b0 s1 hu
      refine ⟨?_, hcap, rfl, by decide⟩
      rw [UnifiedBuffer.new, hu]
      show UnifiedBuffer.view z b0 (UnifiedBuffer.fillFrom z b0 v size s1) = _
      unfold UnifiedBuffer.view
      rw [hcap]
      exact map_range_const _ v size fun i hi =>
        UnifiedBuffer.fillFrom_mem z b0 v size s1 i hi

/-- Witness for C6 at the concrete input of the spec's round-trip property. -/
theorem claim_c6_witness :
    (UnifiedBuffer.new 8 (0 : Nat) 5 okState).1 = .ok ⟨1, 5⟩ ∧
    (UnifiedBuffer.view 8 ⟨1, 5⟩ ((UnifiedBuffer.new 8 (0 : Nat) 5 okState).2)
        = List.replicate 5 0 ∧
      (UnifiedBuffer.mk 1 5).capacity = 5 ∧
      (UnifiedBuffer.new 8 (0 : Nat) 5 okState).1 = .ok ⟨1, 5⟩ ∧
      UnifiedBuffer.view 8 ⟨1, 5⟩
          (UnifiedBuffer.writeIdx 8 ⟨1, 5⟩ 2 1 ((UnifiedBuffer.new 8 (0 : Nat) 5 okState).2))
        = [0, 0, 1, 0, 0]) :=
  ⟨rfl, claim_c6 8 0 5 okState ⟨1, 5⟩ rfl⟩

theorem ubox_two_allocs [LT β] (z : Nat) (hz : z ≠ 0) (v1 v2 : β) (s : Backend β)
    (h1 : s.allocResult s.calls.length = none)
    (h2 : s.allocResult (s.calls.length + 1) = none) :
    ∃ b1 b2 : UnifiedBox,
      (UnifiedBox.new z v1 s).1 = .ok b1 ∧
      (UnifiedBox.new z v2 ((UnifiedBox.new z v1 s).2)).1 = .ok b2 ∧
      (UnifiedBox.eqv ((UnifiedBox.new z v2 ((UnifiedBox.new z v1 s).2)).2) b1 b2 ↔ v1 = v2) ∧
      (UnifiedBox.lt ((UnifiedBox.new z v2 ((UnifiedBox.new z v1 s).2)).2) b1 b2 ↔ v1 < v2) := by
  have e1 := ubox_new_success z hz v1 s h1
  have hne : s.nextPtr ≠ s.nextPtr + z + 1 := by omega
  refine ⟨⟨s.nextPtr⟩, ⟨s.nextPtr + z + 1⟩, ?_, ?_, ?_, ?_⟩
  · rw [e1]
  · rw [e1, ubox_new_success z hz v2]
    simpa using h2
  · rw [e1, ubox_new_success z hz v2]
    · simp [UnifiedBox.eqv, UnifiedBox.get, hne]
    · simpa using h2
  · rw [e1, ubox_new_success z hz v2]
    · simp [UnifiedBox.lt, UnifiedBox.get, hne]
    · simpa using h2

theorem lbox_two_allocs [LT β] (z : Nat) (hz : z ≠ 0) (v1 v2 : β) (s : Backend β)
    (h1 : s.allocResult s.calls.length = none)
    (h2 : s.allocResult (s.calls.length + 1) = none) :
    ∃ b1 b2 : LockedBox,
      (LockedBox.new z v1 s).1 = .ok b1 ∧
      (LockedBox.new z v2 ((LockedBox.new z v1 s).2)).1 = .ok b2 ∧
      (LockedBox.eqv ((LockedBox.new z v2 ((LockedBox.new z v1 s).2)).2) b1 b2 ↔ v1 = v2) ∧
      (LockedBox.lt ((LockedBox.new z v2 ((LockedBox.new z v1 s).2)).2) b1 b2 ↔ v1 < v2) := by
  have e1 := lbox_new_success z hz v1 s h1
  have hne : s.nextPtr ≠ s.nextPtr + z + 1 := by omega
  refine ⟨⟨s.nextPtr⟩, ⟨s.nextPtr + z + 1⟩, ?_, ?_, ?_, ?_⟩
  · rw [e1]
  · rw [e1, lbox_new_success z hz v2]
    simpa using h2
  · rw [e1, lbox_new_success z hz v2]
    · simp [LockedBox.eqv, LockedBox.get, hne]
    · simpa using h2
  · rw [e1, lbox_new_success z hz v2]
    · simp [LockedBox.lt, LockedBox.get, hne]
    · simpa using h2

/-- C8: equality and ordering of single-value handles delegate to the
pointees — two handles are equal exactly when their pointees are equal, and
`h1 < h2` exactly when the value in `h1` is less than the value in `h2` — for
both the unified and the locked policy; consequently, allocating two boxes of
a non-zero-sized type with values `v1` and `v2` (both allocations accepted by
the backend) produces handles whose equality and order coincide with those of
`v1` and `v2`. -/
theorem claim_c8 [LT β] (z : Nat) (v1 v2 : β) (s : Backend β)
    (hz : z ≠ 0)
    (h1 : s.allocResult s.calls.length = none)
    (h2 : s.allocResult (s.calls.length + 1) = none) :
    (∀ (t : Backend β) (b1 b2 : UnifiedBox),
        (UnifiedBox.eqv t b1 b2 ↔ UnifiedBox.get b1 t = UnifiedBox.get b2 t) ∧
        (UnifiedBox.lt t b1 b2 ↔ UnifiedBox.get b1 t < UnifiedBox.get b2 t)) ∧
    (∀ (t : Backend β) (b1 b2 : LockedBox),
        (LockedBox.eqv t b1 b2 ↔ LockedBox.get b1 t = LockedBox.get b2 t) ∧
        (LockedBox.lt t b1 b2 ↔ LockedBox.get b1 t < LockedBox.get b2 t)) ∧
    (∃ b1 b2 : UnifiedBox,
        (UnifiedBox.new z v1 s).1 = .ok b1 ∧
        (UnifiedBox.new z v2 ((UnifiedBox.new z v1 s).2)).1 = .ok b2 ∧
        (UnifiedBox.eqv ((UnifiedBox.new z v2 ((UnifiedBox.new z v1 s).2)).2) b1 b2 ↔ v1 = v2) ∧
        (UnifiedBox.lt ((UnifiedBox.new z v2 ((UnifiedBox.new z v1 s).2)).2) b1 b2 ↔ v1 < v2)) ∧
    (∃ b1 b2 : LockedBox,
        (LockedBox.new z v1 s).1 = .ok b1 ∧
        (LockedBox.new z v2 ((LockedBox.new z v1 s).2)).1 = .ok b2 ∧
        (LockedBox.eqv ((LockedBox.new z v2 ((LockedBox.new z v1 s).2)).2) b1 b2 ↔ v1 = v2) ∧
        (LockedBox.lt ((LockedBox.new z v2 ((LockedBox.new z v1 s).2)).2) b1 b2 ↔ v1 < v2)) :=
  ⟨fun t b1 b2 => ⟨Iff.rfl, Iff.rfl⟩,
    fun t b1 b2 => ⟨Iff.rfl, Iff.rfl⟩,
    ubox_two_allocs z hz v1 v2 s h1 h2,
    lbox_two_allocs z hz v1 v2 s h1 h2⟩

/-- Witness for C8 at a concrete input: values 1 and 2 (so `1 < 2` holds
through the handles), 8-byte elements, a backend accepting both
allocations. -/
theorem claim_c8_witness :
    ((8 : Nat) ≠ 0 ∧
      okState.allocResult okState.calls.length = none ∧
      okState.allocResult (okState.calls.length + 1) = none) ∧
    ((∀ (t : Backend Nat) (b1 b2 : UnifiedBox),
        (UnifiedBox.eqv t b1 b2 ↔ UnifiedBox.get b1 t = UnifiedBox.get b2 t) ∧
        (UnifiedBox.lt t b1 b2 ↔ UnifiedBox.get b1 t < UnifiedBox.get b2 t)) ∧
      (∀ (t : Backend Nat) (b1 b2 : LockedBox),
        (LockedBox.eqv t b1 b2 ↔ LockedBox.get b1 t = LockedBox.get b2 t) ∧
        (LockedBox.lt t b1 b2 ↔ LockedBox.get b1 t < LockedBox.get b2 t)) ∧
      (∃ b1 b2 : UnifiedBox,
        (UnifiedBox.new 8 (1 : Nat) okState).1 = .ok b1 ∧
        (UnifiedBox.new 8 (2 : Nat) ((UnifiedBox.new 8 (1 : Nat) okState).2)).1 = .ok b2 ∧
        (UnifiedBox.eqv ((UnifiedBox.new 8 (2 : Nat) ((UnifiedBox.new 8 (1 : Nat) okState).2)).2)
            b1 b2 ↔ (1 : Nat) = 2) ∧
        (UnifiedBox.lt ((UnifiedBox.new 8 (2 : Nat) ((UnifiedBox.new 8 (1 : Nat) okState).2)).2)
            b1 b2 ↔ (1 : Nat) < 2)) ∧
      (∃ b1 b2 : LockedBox,
        (LockedBox.new 8 (1 : Nat) okState).1 = .ok b1 ∧
        (LockedBox.new 8 (2 : Nat) ((LockedBox.new 8 (1 : Nat) okState).2)).1 = .ok b2 ∧
        (LockedBox.eqv ((LockedBox.new 8 (2 : Nat) ((LockedBox.new 8 (1 : Nat) okState).2)).2)
            b1 b2 ↔ (1 : Nat) = 2) ∧
        (LockedBox.lt ((LockedBox.new 8 (2 : Nat) ((LockedBox.new 8 (1 : Nat) okState).2)).2)
            b1 b2 ↔ (1 : Nat) < 2))) :=
  ⟨⟨by decide, rfl, rfl⟩, claim_c8 8 1 2 okState (by decide) rfl rfl⟩

/-- C3 counterexample: the claim fails on the code.  `Executor::copy` — cited
by the claim as an invocation of the synchronous copy contract — performs
`srcs.iter().zip(dsts)` with no length check and a `()` result: copying a
3-element source into a 2-element destination silently truncates to the two
zipped elements and reports no failure at all (its type admits none). -/
theorem claim_c3_counterexample :
    Executor.copy ⟨0⟩ [1, 2, 3] [0, 0] = [1, 2] := by decide

/-- C3 amended: the sealed `CopyDestination` synchronous copy contract (whose
implementations live outside the given sources and are modelled from the
spec) returns a `SizeMismatch` failure when source and destination hold
differing element counts and copies every element when the counts agree; the
`Executor::copy` helper of the futures scaffold, by contrast, performs no
size check — it overwrites the zipped prefix of the destination and leaves
the tail unchanged (silent truncation, no error, no panic: the result always
has the destination's length). -/
theorem claim_c3_amended (dst src dst2 src2 : List β)
    (hne : src.length ≠ dst.length) (heq : src2.length = dst2.length) :
    copy_from dst src = .error .sizeMismatch ∧
    copy_from dst2 src2 = .ok src2 ∧
    (∀ (ex : Executor) (srcs dsts : List Int),
      (Executor.copy ex srcs dsts).length = dsts.length ∧
      Executor.copy ex srcs dsts = srcs.take dsts.length ++ dsts.drop srcs.length) := by
  refine ⟨by simp [copy_from, hne], by simp [copy_from, heq], fun ex srcs dsts => ⟨?_, ?_⟩⟩
  · simp [Executor.copy, map_fst_zip_take]
    omega
  · simp [Executor.copy, map_fst_zip_take]

/-- Witness for the amended C3 at concrete inputs: mismatched lists
`[1,2,3]` into `[0,0]` and matched lists `[4,5]` into `[0,0]`. -/
theorem claim_c3_amended_witness :
    (([1, 2, 3] : List Int).length ≠ ([0, 0] : List Int).length ∧
      ([4, 5] : List Int).length = ([0, 0] : List Int).length) ∧
    (copy_from ([0, 0] : List Int) [1, 2, 3] = .error .sizeMismatch ∧
      copy_from ([0, 0] : List Int) [4, 5] = .ok [4, 5] ∧
      (∀ (ex : Executor) (srcs dsts : List Int),
        (Executor.copy ex srcs dsts).length = dsts.length ∧
        Executor.copy ex srcs dsts = srcs.take dsts.length ++ dsts.drop srcs.length)) :=
  ⟨⟨by decide, by decide⟩,
    claim_c3_amended [0, 0] [1, 2, 3] [0, 0] [4, 5] (by decide) (by decide)⟩

/-- C4 counterexample: the claim fails on the code for single-value handles.
A `UnifiedBox` of a zero-sized type is constructed with the null pointer —
exactly the representation carried by the residual of a released box — so the
live-but-elided state is not distinguishable by representation from the freed
state (the same holds for `LockedBox`). -/
theorem claim_c4_counterexample :
    (UnifiedBox.new 0 (0 : Nat) okState).1 = .ok ((UnifiedBox.dropImplicit ⟨5⟩ okState).2) ∧
    (LockedBox.new 0 (0 : Nat) okState).1 = .ok ((LockedBox.dropImplicit ⟨5⟩ okState).2) :=
  ⟨rfl, rfl⟩

/-- C4 amended: for buffers the claim holds — an elided buffer allocation
(zero-sized element type or zero capacity) is constructed with the fixed
dangling sentinel pointer, which is non-null and therefore distinct from the
null marker that both release paths install when they free a real
allocation; for single-value handles of zero-sized types, however, the
constructor installs the null pointer itself, the very representation of a
released handle (release then treats the sentinel as an already-released
no-op). -/
theorem claim_c4_amended (z size : Nat) (v : β) (s : Backend β) (ub : UnifiedBuffer)
    (bb : UnifiedBox) (lb : LockedBox)
    (h0 : size * z = 0)
    (hub : ub.buf ≠ 0) (hcap : 0 < ub.capacity) (hz : 0 < z)
    (hbb : bb.ptr ≠ 0) (hlb : lb.ptr ≠ 0) :
    UnifiedBuffer.uninitialized z size s = (.ok ⟨danglingPtr, size⟩, s) ∧
    danglingPtr ≠ 0 ∧
    ((UnifiedBuffer.dropImplicit z ub s).2).buf = 0 ∧
    ((UnifiedBuffer.drop z ub s).2.2).buf = 0 ∧
    UnifiedBox.new 0 v s = (.ok ⟨0⟩, s) ∧
    (UnifiedBox.dropImplicit bb s).2 = (⟨0⟩ : UnifiedBox) ∧
    LockedBox.new 0 v s = (.ok ⟨0⟩, s) ∧
    (LockedBox.dropImplicit lb s).2 = (⟨0⟩ : LockedBox) := by
  have hlt : 0 < USIZE := by norm_num [USIZE]
  refine ⟨?_, by decide, ?_, ?_, rfl, ?_, rfl, ?_⟩
  · simp [UnifiedBuffer.uninitialized, checked_mul, h0, hlt]
  · simp [UnifiedBuffer.dropImplicit, hub, hcap, hz]
  · cases hfr : s.freeResult s.calls.length with
    | none => simp [UnifiedBuffer.drop, hub, hcap, hz, cuda_free_unified, backendFree, hfr]
    | some e => simp [UnifiedBuffer.drop, hub, hcap, hz, cuda_free_unified, backendFree, hfr]
  · simp [UnifiedBox.dropImplicit, hbb]
  · simp [LockedBox.dropImplicit, hlb]

/-- Witness for the amended C4 at concrete inputs: a zero-capacity buffer of
8-byte elements, plus live handles at pointer 5 being released. -/
theorem claim_c4_amended_witness :
    ((0 : Nat) * 8 = 0 ∧ (5 : Nat) ≠ 0 ∧ (0 : Nat) < 3 ∧ (0 : Nat) < 8) ∧
    (UnifiedBuffer.uninitialized 8 0 okState = (.ok ⟨danglingPtr, 0⟩, okState) ∧
      danglingPtr ≠ 0 ∧
      ((UnifiedBuffer.dropImplicit 8 ⟨5, 3⟩ okState).2).buf = 0 ∧
      ((UnifiedBuffer.drop 8 ⟨5, 3⟩ okState).2.2).buf = 0 ∧
      UnifiedBox.new 0 (7 : Nat) okState = (.ok ⟨0⟩, okState) ∧
      (UnifiedBox.dropImplicit ⟨5⟩ okState).2 = (⟨0⟩ : UnifiedBox) ∧
      LockedBox.new 0 (7 : Nat) okState = (.ok ⟨0⟩, okState) ∧
      (LockedBox.dropImplicit ⟨5⟩ okState).2 = (⟨0⟩ : LockedBox)) :=
  ⟨⟨by decide, by decide, by decide, by decide⟩,
    claim_c4_amended 8 0 7 okState ⟨5, 3⟩ ⟨5⟩ ⟨5⟩ (by decide) (by decide) (by decide)
      (by decide) (by decide) (by decide)⟩
